import Mathlib

/-!
Shallow embedding of the risk-scoring and adaptive-escalation engine of
`apps/workers/workers/risk_worker.py`.

Python floats are modelled as rationals (`ℚ`), timestamps as integers
(`ℤ`), event-count dictionaries as association lists keyed by event-type
strings.  Effectful code (message-bus publishes, key-value store writes)
is modelled by explicit effect-trace lists.
-/

namespace RiskWorker

/-- The `self.risk_weights` dictionary together with the
`self.risk_weights.get(factor, 0)` default used by the scorer. -/
def riskWeights (factor : String) : ℚ :=
  if factor = "click_rate" then 35/100
  else if factor = "report_rate" then -25/100
  else if factor = "training_completion" then -20/100
  else if factor = "recent_incidents" then 15/100
  else if factor = "time_to_report" then 10/100
  else if factor = "repeat_offender" then 5/100
  else 0

/-- `_calculate_weighted_risk_score`: iterate over the factor map in
insertion order, clamp each value to [0,100], multiply by its weight,
sum, and clamp the total to [0,100]. -/
def calculateWeightedRiskScore (factors : List (String × ℚ)) : ℚ :=
  let total := factors.foldl
    (fun acc fv => acc + min (max fv.2 0) 100 * riskWeights fv.1) 0
  min (max total 0) 100

/-- `_determine_risk_level` with the `self.risk_thresholds` table
(`critical` 90, `high` 75, `medium` 50; the `low` entry 25 is unused). -/
def determineRiskLevel (score : ℚ) : String :=
  if 90 ≤ score then "critical"
  else if 75 ≤ score then "high"
  else if 50 ≤ score then "medium"
  else "low"

/-- The factor map of the spec's worked example. -/
def exampleFactors : List (String × ℚ) :=
  [("click_rate", 100), ("report_rate", 0), ("training_completion", 0),
   ("recent_incidents", 0), ("time_to_report", 0), ("repeat_offender", 0)]

/-- One entry of the per-event-type metrics dictionary built by
`_get_user_metrics`: `{'count': …, 'first_event': …, 'last_event': …}`. -/
structure EventMetric where
  count : ℕ
  first_event : ℤ
  last_event : ℤ
  deriving DecidableEq, Repr

/-- The metrics dictionary, keyed by event type (insertion-ordered). -/
abbrev Metrics := List (String × EventMetric)

/-- `metrics.get(event_type, {}).get('count', 0)`. -/
def getCount (m : Metrics) (event_type : String) : ℕ :=
  match m.lookup event_type with
  | some em => em.count
  | none => 0

/-- One row of the event-store query result:
`(event_type, count, first_event, last_event)`. -/
structure EventRow where
  event_type : String
  count : ℕ
  first_event : ℤ
  last_event : ℤ
  deriving DecidableEq, Repr

/-- Python dictionary assignment `metrics[event_type] = …`: replaces an
existing binding, otherwise appends at the end. -/
def dictInsert (m : Metrics) (k : String) (v : EventMetric) : Metrics :=
  if (m.lookup k).isSome then
    m.map (fun p => if p.1 = k then (k, v) else p)
  else m ++ [(k, v)]

/-- `_get_user_metrics`: build the metrics dictionary from the event-store
rows; on any query failure, catch the exception and return an empty
dictionary. -/
def getUserMetrics (queryResult : Except String (List EventRow)) : Metrics :=
  match queryResult with
  | Except.ok rows =>
      rows.foldl (fun m r =>
        dictInsert m r.event_type ⟨r.count, r.first_event, r.last_event⟩) []
  | Except.error _ => []

/-- The incident event types used for `recent_incidents` and
`repeat_offender`. -/
def incidentEventTypes : List String :=
  ["email_clicked", "sms_clicked", "landing_form_submitted"]

/-- `_calculate_time_to_report`: hard-coded neutral default. -/
def calculateTimeToReport : ℚ := 50

/-- `_calculate_repeat_offender_score`: step function of the total
incident count. -/
def calculateRepeatOffenderScore (m : Metrics) : ℚ :=
  let total_incidents := incidentEventTypes.foldl (fun acc et => acc + getCount m et) 0
  if 5 ≤ total_incidents then 100
  else if 3 ≤ total_incidents then 75
  else if 1 ≤ total_incidents then 50
  else 0

/-- The recent-incidents loop of `_calculate_risk_factors`: for each
incident type present whose `last_event` is at or after the 30-day
cutoff, add the type's total count. -/
def recentIncidents (m : Metrics) (recent_cutoff : ℤ) : ℕ :=
  incidentEventTypes.foldl (fun acc et =>
    match m.lookup et with
    | some em => if recent_cutoff ≤ em.last_event then acc + em.count else acc
    | none => acc) 0

/-- `_calculate_risk_factors`: derive the six factors from the metrics
dictionary (rates fall back to 0 on a zero denominator). -/
def calculateRiskFactors (m : Metrics) (recent_cutoff : ℤ) : List (String × ℚ) :=
  let total_sent := getCount m "email_sent" + getCount m "sms_sent"
  let total_clicked := getCount m "email_clicked" + getCount m "sms_clicked"
  let click_rate : ℚ :=
    if 0 < total_sent then (total_clicked : ℚ) / (total_sent : ℚ) * 100 else 0
  let total_reported := getCount m "email_reported" + getCount m "sms_reported"
  let report_rate : ℚ :=
    if 0 < total_sent then (total_reported : ℚ) / (total_sent : ℚ) * 100 else 0
  let training_started := getCount m "training_started"
  let training_completed := getCount m "training_completed"
  let training_completion : ℚ :=
    if 0 < training_started then
      (training_completed : ℚ) / (training_started : ℚ) * 100
    else 0
  [("click_rate", click_rate),
   ("report_rate", report_rate),
   ("training_completion", training_completion),
   ("recent_incidents", (recentIncidents m recent_cutoff : ℚ)),
   ("time_to_report", calculateTimeToReport),
   ("repeat_offender", calculateRepeatOffenderScore m)]

/-- `risk_factors.get(key, 0)`. -/
def lookupFactor (factors : List (String × ℚ)) (k : String) : ℚ :=
  match factors.lookup k with
  | some v => v
  | none => 0

/-- The `RiskScore` dataclass, minus `last_updated` (the only field not
determined by the inputs: it is stamped `datetime.utcnow()`). -/
structure RiskScoreData where
  user_id : String
  org_id : String
  overall_score : ℚ
  click_rate : ℚ
  report_rate : ℚ
  training_completion_rate : ℚ
  recent_incidents : ℚ
  risk_level : String
  factors : List (String × ℚ)
  deriving DecidableEq, Repr

/-- The pure core of `calculate_user_risk`: factors → weighted score →
level → `RiskScore` record (timestamp excluded). -/
def buildRiskScore (user_id org_id : String) (m : Metrics) (recent_cutoff : ℤ) :
    RiskScoreData :=
  let risk_factors := calculateRiskFactors m recent_cutoff
  let overall_score := calculateWeightedRiskScore risk_factors
  let risk_level := determineRiskLevel overall_score
  { user_id := user_id
    org_id := org_id
    overall_score := overall_score
    click_rate := lookupFactor risk_factors "click_rate"
    report_rate := lookupFactor risk_factors "report_rate"
    training_completion_rate := lookupFactor risk_factors "training_completion"
    recent_incidents := lookupFactor risk_factors "recent_incidents"
    risk_level := risk_level
    factors := risk_factors }

/-- The `critical` action list of `_trigger_adaptive_actions`. -/
def criticalActions : List String :=
  ["immediate_additional_training", "manager_notification",
   "enhanced_monitoring", "mandatory_security_briefing"]

/-- The `high` action list of `_trigger_adaptive_actions`. -/
def highActions : List String :=
  ["additional_training", "increased_simulation_frequency", "coaching_session"]

/-- `_trigger_adaptive_actions`: the list of actions the dispatcher
iterates over for a given risk level. -/
def triggerAdaptiveActionsList (risk_level : String) : List String :=
  if risk_level = "critical" then criticalActions
  else if risk_level = "high" then highActions
  else []

/-- `calculate_user_risk`'s gate: adaptive actions are dispatched iff the
newly computed level is `high` or `critical`; the previous level is not
consulted anywhere. -/
def adaptiveActionsDispatched (rs : RiskScoreData) : List String :=
  if rs.risk_level = "high" ∨ rs.risk_level = "critical" then
    triggerAdaptiveActionsList rs.risk_level
  else []

/-- An observable external effect: a message-bus publish or a key-value
store operation.  `redisListPush` is the operation a trend-history append
would perform; it is in the type so that its absence can be stated. -/
inductive Effect where
  | publish (topic : String) (msgType : String)
  | redisSetex (key : String) (ttl : ℕ)
  | redisZadd (key : String)
  | redisLrange (key : String) (start stop : ℕ)
  | redisListPush (key : String)
  deriving DecidableEq, Repr

/-- `_execute_adaptive_action`: the external effects of one action.  Only
three action names have a branch; every other action name (including all
three `high`-level actions and `mandatory_security_briefing`) falls
through and produces no effect. -/
def executeAdaptiveAction (user_id : String) (action : String) : List Effect :=
  if action = "immediate_additional_training" then
    [Effect.publish "coach.send" "assign_urgent_training"]
  else if action = "manager_notification" then
    [Effect.publish "notifications.manager" "high_risk_user_alert"]
  else if action = "enhanced_monitoring" then
    [Effect.redisSetex ("enhanced_monitoring:" ++ user_id) 604800]
  else []

/-- The effects of the full `_trigger_adaptive_actions` loop. -/
def adaptiveDispatchEffects (rs : RiskScoreData) : List Effect :=
  (triggerAdaptiveActionsList rs.risk_level).flatMap (executeAdaptiveAction rs.user_id)

/-- `_store_user_risk_score`: a TTL write of the user record and a
sorted-set update for the organisation. -/
def storeUserRiskScoreEffects (rs : RiskScoreData) : List Effect :=
  [Effect.redisSetex ("user_risk:" ++ rs.user_id) 86400,
   Effect.redisZadd ("org_risk_scores:" ++ rs.org_id)]

/-- The store/dispatch effects of one `calculate_user_risk` call. -/
def userRiskEffects (rs : RiskScoreData) : List Effect :=
  storeUserRiskScoreEffects rs ++
    (if rs.risk_level = "high" ∨ rs.risk_level = "critical" then
       adaptiveDispatchEffects rs
     else [])

/-- `_calculate_risk_trend`'s only store access: a read of the last five
entries of the cohort's history list.  It performs no write. -/
def calculateRiskTrendEffects (cohort_id : String) : List Effect :=
  [Effect.redisLrange ("cohort_risk_history:" ++ cohort_id) 0 4]

/-- `_store_cohort_risk`: a single TTL write of the cohort snapshot. -/
def storeCohortRiskEffects (cohort_id : String) : List Effect :=
  [Effect.redisSetex ("cohort_risk:" ++ cohort_id) 86400]

/-- The external effects of one `calculate_cohort_risk` call: per-user
calculation effects, then the trend read, then the snapshot write. -/
def cohortRiskEffects (cohort_id : String) (userScores : List RiskScoreData) :
    List Effect :=
  userScores.flatMap userRiskEffects ++
    calculateRiskTrendEffects cohort_id ++ storeCohortRiskEffects cohort_id

/-- Recognises a list-push store operation (the operation that appending
to the trend history would be). -/
def isListPushEffect : Effect → Bool
  | Effect.redisListPush _ => true
  | _ => false

/-- `_calculate_risk_trend`'s classification, given the history read from
the store and the current cohort average. -/
def calculateRiskTrend (history : List ℚ) (current_avg : ℚ) : String :=
  if history.length < 2 then "stable"
  else
    let scores := history ++ [current_avg]
    if 3 ≤ scores.length then
      let recent_trend :=
        scores.getD (scores.length - 1) 0 - scores.getD (scores.length - 3) 0
      if recent_trend < -5 then "improving"
      else if 5 < recent_trend then "declining"
      else "stable"
    else "stable"

/-- Modelled from the claim wording of the trend rule (for comparison
with the source's `calculateRiskTrend`): compare the current average
against `history[-3]`, the value two steps back in the STORED history. -/
def claimStatedRiskTrend (history : List ℚ) (current_avg : ℚ) : String :=
  if history.length < 2 then "stable"
  else
    let diff := current_avg - history.getD (history.length - 3) 0
    if diff < -5 then "improving"
    else if 5 < diff then "declining"
    else "stable"

/-- `_generate_cohort_recommendations`. -/
def generateCohortRecommendations (avg_risk : ℚ) (high_risk_users total_users : ℕ)
    (trend : String) : List String :=
  let high_risk_percentage : ℚ :=
    if 0 < total_users then (high_risk_users : ℚ) / (total_users : ℚ) * 100 else 0
  (if 25 < high_risk_percentage then
     ["Implement organization-wide security awareness campaign"] else []) ++
  (if 60 < avg_risk then ["Increase phishing simulation frequency"] else []) ++
  (if trend = "declining" then
     ["Review and update security training content",
      "Conduct security culture assessment"] else []) ++
  (if 10 < high_risk_users then
     ["Create targeted training program for high-risk users"] else [])

/-- The response of `calculate_cohort_risk`: either the explicit failure
dictionary `{'success': False, 'error': …}` or the success payload. -/
inductive CohortOutcome where
  | failure (error : String)
  | success (average_risk_score : ℚ) (high_risk_users : ℕ) (total_users : ℕ)
      (risk_trend : String) (recommendations : List String)
  deriving DecidableEq, Repr

/-- The pure core of `calculate_cohort_risk`.  `userResults` holds one
entry per requested user id: `some score` when that user's calculation
succeeded, `none` when it raised (the exception is caught and the user
skipped).  `history` is the trend history read from the store. -/
def calculateCohortRisk (userResults : List (Option ℚ)) (history : List ℚ) :
    CohortOutcome :=
  let user_risk_scores := userResults.filterMap id
  if user_risk_scores.isEmpty then
    CohortOutcome.failure "No valid user risk scores calculated"
  else
    let average_risk := user_risk_scores.sum / (user_risk_scores.length : ℚ)
    let high_risk_users := (user_risk_scores.filter (fun s => 75 ≤ s)).length
    let risk_trend := calculateRiskTrend history average_risk
    CohortOutcome.success average_risk high_risk_users userResults.length risk_trend
      (generateCohortRecommendations average_risk high_risk_users
        userResults.length risk_trend)

/-!  ## Theorems settling the claims -/

/-- The weighted score of the spec's example factor map is exactly 35. -/
theorem exampleFactors_score : calculateWeightedRiskScore exampleFactors = 35 := by
  simp [calculateWeightedRiskScore, exampleFactors, riskWeights, min_def, max_def]
  norm_num

/-- The weighted score computed on the metrics-query failure path is
exactly 5 (only the hard-coded `time_to_report` default contributes). -/
theorem errorPath_score (err : String) (recent_cutoff : ℤ) :
    calculateWeightedRiskScore
      (calculateRiskFactors (getUserMetrics (Except.error err)) recent_cutoff) = 5 := by
  simp [calculateWeightedRiskScore, calculateRiskFactors, getUserMetrics,
    getCount, recentIncidents, incidentEventTypes, calculateTimeToReport,
    calculateRepeatOffenderScore, riskWeights, min_def, max_def]
  norm_num

/-- C1 (counterexample): for the spec's example factor map the computed
score is 35, and `_determine_risk_level` classifies 35 as `"low"` (the
`medium` band starts at 50), so the claimed level `"medium"` is wrong. -/
theorem c1_example_level_not_medium :
    ¬ (calculateWeightedRiskScore exampleFactors = 35 ∧
       determineRiskLevel (calculateWeightedRiskScore exampleFactors) = "medium") := by
  intro h
  have h2 := h.2
  rw [exampleFactors_score] at h2
  norm_num [determineRiskLevel] at h2
  exact absurd h2 (by decide)

/-- C1 (amended): for the factor map `{click_rate:100, report_rate:0,
training_completion:0, recent_incidents:0, time_to_report:0,
repeat_offender:0}` the weighted risk score is 35.0 and the risk level
determined from that score is `"low"`. -/
theorem c1_example_score_and_level :
    calculateWeightedRiskScore exampleFactors = 35 ∧
    determineRiskLevel (calculateWeightedRiskScore exampleFactors) = "low" := by
  refine ⟨exampleFactors_score, ?_⟩
  rw [exampleFactors_score]
  norm_num [determineRiskLevel]

/-- C2 (counterexample): when the event-store query fails, the resulting
overall score is not 0 (the `time_to_report` factor defaults to 50, so
the score is 5). -/
theorem c2_error_path_score_nonzero :
    calculateWeightedRiskScore
      (calculateRiskFactors (getUserMetrics (Except.error "connection refused")) 0)
      ≠ 0 := by
  rw [errorPath_score]
  norm_num

/-- C2 (amended): whenever the event-store query fails, `_get_user_metrics`
swallows the error and returns an empty metrics dictionary, and scoring
proceeds with `click_rate`, `report_rate`, `training_completion`,
`recent_incidents` and `repeat_offender` all 0 but `time_to_report` at
its hard-coded default 50.0, so the resulting overall score is 5.0. -/
theorem c2_error_path_factors_and_score (err : String) (recent_cutoff : ℤ) :
    getUserMetrics (Except.error err) = [] ∧
    calculateRiskFactors (getUserMetrics (Except.error err)) recent_cutoff =
      [("click_rate", 0), ("report_rate", 0), ("training_completion", 0),
       ("recent_incidents", 0), ("time_to_report", 50), ("repeat_offender", 0)] ∧
    calculateWeightedRiskScore
      (calculateRiskFactors (getUserMetrics (Except.error err)) recent_cutoff) = 5 :=
  ⟨rfl, rfl, errorPath_score err recent_cutoff⟩

/-- C7: for every factor map whatsoever, the weighted risk score lies in
[0,100] (the final clamp of `_calculate_weighted_risk_score`). -/
theorem c7_score_in_range (factors : List (String × ℚ)) :
    0 ≤ calculateWeightedRiskScore factors ∧
      calculateWeightedRiskScore factors ≤ 100 := by
  unfold calculateWeightedRiskScore
  exact ⟨le_min (le_max_right _ 0) (by norm_num), min_le_right _ _⟩

/-- C9: scoring is deterministic — identical factor maps yield identical
scores and identical levels, and identical metrics yield identical
`RiskScore` contents (the record excludes only `last_updated`, the one
field stamped from the clock). -/
theorem c9_scoring_deterministic (f1 f2 : List (String × ℚ)) (u o : String)
    (m1 m2 : Metrics) (recent_cutoff : ℤ) (hf : f1 = f2) (hm : m1 = m2) :
    calculateWeightedRiskScore f1 = calculateWeightedRiskScore f2 ∧
    determineRiskLevel (calculateWeightedRiskScore f1) =
      determineRiskLevel (calculateWeightedRiskScore f2) ∧
    buildRiskScore u o m1 recent_cutoff = buildRiskScore u o m2 recent_cutoff := by
  subst hf; subst hm; exact ⟨rfl, rfl, rfl⟩

/-- Witness for `c9_scoring_deterministic` at a concrete input. -/
theorem c9_scoring_deterministic_witness :
    calculateWeightedRiskScore exampleFactors = calculateWeightedRiskScore exampleFactors ∧
    determineRiskLevel (calculateWeightedRiskScore exampleFactors) =
      determineRiskLevel (calculateWeightedRiskScore exampleFactors) ∧
    buildRiskScore "u1" "o1" [] 0 = buildRiskScore "u1" "o1" [] 0 :=
  c9_scoring_deterministic exampleFactors exampleFactors "u1" "o1" [] [] 0 rfl rfl

/-- Helper: `_execute_adaptive_action` never performs a list-push store
operation, whatever the action name. -/
theorem executeAdaptiveAction_no_push (u a : String) (e : Effect)
    (he : e ∈ executeAdaptiveAction u a) : isListPushEffect e = false := by
  unfold executeAdaptiveAction at he
  split_ifs at he <;> simp_all [isListPushEffect]

/-- Helper: one user's risk calculation performs no list-push store
operation. -/
theorem userRiskEffects_no_push (rs : RiskScoreData) (e : Effect)
    (he : e ∈ userRiskEffects rs) : isListPushEffect e = false := by
  unfold userRiskEffects storeUserRiskScoreEffects adaptiveDispatchEffects at he
  rcases List.mem_append.mp he with h | h
  · simp at h
    rcases h with h | h <;> subst h <;> rfl
  · split_ifs at h
    · rcases List.mem_flatMap.mp h with ⟨a, _, hea⟩
      exact executeAdaptiveAction_no_push rs.user_id a e hea
    · simp at h

/-- C3: for a user whose newly computed level is `high`, the dispatcher
publishes nothing at all — `_execute_adaptive_action` has no branch for
`additional_training`, `increased_simulation_frequency` or
`coaching_session`, so each of the three produces an empty effect list
and the whole dispatch emits no message. -/
theorem c3_high_actions_publish_nothing :
    (∀ (u a : String), a ∈ highActions → executeAdaptiveAction u a = []) ∧
    (∀ rs : RiskScoreData, rs.risk_level = "high" → adaptiveDispatchEffects rs = []) := by
  constructor
  · intro u a ha
    simp only [highActions, List.mem_cons, List.not_mem_nil, or_false] at ha
    rcases ha with rfl | rfl | rfl <;> rfl
  · intro rs h
    unfold adaptiveDispatchEffects
    rw [h]
    rfl

/-- Witness for `c3_high_actions_publish_nothing` at concrete inputs. -/
theorem c3_high_actions_publish_nothing_witness :
    executeAdaptiveAction "u1" "additional_training" = [] ∧
    adaptiveDispatchEffects ⟨"u1", "o1", 80, 0, 0, 0, 0, "high", []⟩ = [] :=
  ⟨c3_high_actions_publish_nothing.1 "u1" "additional_training" (by decide),
   c3_high_actions_publish_nothing.2 ⟨"u1", "o1", 80, 0, 0, 0, 0, "high", []⟩ rfl⟩

/-- C4: no store operation performed during a cohort risk computation is
a list push, so the newly computed average is never appended to the
cohort's `cohort_risk_history` list (which is only ever read), and no
FIFO eviction ever takes place. -/
theorem c4_no_trend_history_append (cohort_id : String)
    (userScores : List RiskScoreData) (e : Effect)
    (he : e ∈ cohortRiskEffects cohort_id userScores) :
    isListPushEffect e = false := by
  unfold cohortRiskEffects calculateRiskTrendEffects storeCohortRiskEffects at he
  rcases List.mem_append.mp he with h | h
  · rcases List.mem_append.mp h with h | h
    · rcases List.mem_flatMap.mp h with ⟨rs, _, hrs⟩
      exact userRiskEffects_no_push rs e hrs
    · simp at h
      subst h
      rfl
  · simp at h
    subst h
    rfl

/-- Witness for `c4_no_trend_history_append` on a concrete trace. -/
theorem c4_no_trend_history_append_witness :
    Effect.redisLrange "cohort_risk_history:c1" 0 4 ∈ cohortRiskEffects "c1" [] ∧
    isListPushEffect (Effect.redisLrange "cohort_risk_history:c1" 0 4) = false :=
  ⟨by decide,
   c4_no_trend_history_append "c1" []
     (Effect.redisLrange "cohort_risk_history:c1" 0 4) (by decide)⟩

/-- C5 (counterexample): for stored history `[60, 58, 57]` and current
average 54 the code yields `"stable"` (it compares 54 against
`scores[-3] = 58`, a decrease of only 4), while the claim's rule —
compare against `history[-3] = 60`, a decrease of 6 — yields
`"improving"`. -/
theorem c5_trend_counterexample :
    calculateRiskTrend [60, 58, 57] 54 = "stable" ∧
    claimStatedRiskTrend [60, 58, 57] 54 = "improving" := by
  refine ⟨?_, ?_⟩
  · norm_num [calculateRiskTrend, List.getD]
  · norm_num [claimStatedRiskTrend, List.getD]

/-- C5 (amended): with at least 3 points (stored history plus current),
the code compares the current average against the element two before it
in the appended list `history ++ [current]` — that is, the second-to-last
element of the stored history, not `history[-3]`: a decrease greater
than 5 yields `"improving"`, an increase greater than 5 yields
`"declining"`, otherwise `"stable"`; for stored history `[60, 58, 55]`
and current average 48 the result is `"improving"` (48 − 55's
predecessor 58 = −10). -/
theorem c5_trend_rule :
    (∀ (history : List ℚ) (current_avg : ℚ), 2 ≤ history.length →
      calculateRiskTrend history current_avg =
        (if current_avg - history.getD (history.length - 2) 0 < -5 then "improving"
         else if 5 < current_avg - history.getD (history.length - 2) 0 then "declining"
         else "stable")) ∧
    calculateRiskTrend [60, 58, 55] 48 = "improving" := by
  constructor
  · intro history current_avg h2
    have hne : ¬ history.length < 2 := by omega
    have hlen : (history ++ [current_avg]).length = history.length + 1 := by simp
    have h3 : 3 ≤ (history ++ [current_avg]).length := by rw [hlen]; omega
    have hlast : (history ++ [current_avg]).getD
        ((history ++ [current_avg]).length - 1) 0 = current_avg := by
      rw [hlen, Nat.add_sub_cancel,
        List.getD_append_right history [current_avg] 0 history.length (le_refl _),
        Nat.sub_self]
      rfl
    have hback : (history ++ [current_avg]).getD
        ((history ++ [current_avg]).length - 3) 0
        = history.getD (history.length - 2) 0 := by
      rw [hlen]
      have hidx : history.length + 1 - 3 = history.length - 2 := by omega
      rw [hidx]
      exact List.getD_append history [current_avg] 0 (history.length - 2) (by omega)
    simp only [calculateRiskTrend, if_neg hne, if_pos h3, hlast, hback]
  · norm_num [calculateRiskTrend, List.getD]

/-- Witness for the general rule of `c5_trend_rule` at a concrete input. -/
theorem c5_trend_rule_witness :
    2 ≤ ([60, 58, 55] : List ℚ).length ∧
    calculateRiskTrend [60, 58, 55] 48 = "improving" :=
  ⟨by decide,
   by rw [c5_trend_rule.1 [60, 58, 55] 48 (by decide)]; norm_num [List.getD]⟩

/-- C6: on every evaluation whose newly computed level is `critical` the
dispatcher does iterate exactly the four critical action names —
regardless of the user's previous level, which is not an input anywhere —
but the executor emits effects for only three of them:
`_execute_adaptive_action` has no branch for
`mandatory_security_briefing`, so that action produces no effect and no
mandatory-briefing record is ever emitted; the full dispatch emits
exactly two publishes and the enhanced-monitoring flag write. -/
theorem c6_critical_dispatch_effects (rs : RiskScoreData)
    (h : rs.risk_level = "critical") :
    adaptiveActionsDispatched rs =
      ["immediate_additional_training", "manager_notification",
       "enhanced_monitoring", "mandatory_security_briefing"] ∧
    executeAdaptiveAction rs.user_id "mandatory_security_briefing" = [] ∧
    adaptiveDispatchEffects rs =
      [Effect.publish "coach.send" "assign_urgent_training",
       Effect.publish "notifications.manager" "high_risk_user_alert",
       Effect.redisSetex ("enhanced_monitoring:" ++ rs.user_id) 604800] := by
  refine ⟨?_, rfl, ?_⟩
  · unfold adaptiveActionsDispatched triggerAdaptiveActionsList
    rw [h]
    rfl
  · unfold adaptiveDispatchEffects triggerAdaptiveActionsList
    rw [h]
    rfl

/-- Witness for `c6_critical_dispatch_effects` at a concrete record. -/
theorem c6_critical_dispatch_effects_witness :
    adaptiveActionsDispatched ⟨"u1", "o1", 95, 0, 0, 0, 0, "critical", []⟩ =
      ["immediate_additional_training", "manager_notification",
       "enhanced_monitoring", "mandatory_security_briefing"] ∧
    executeAdaptiveAction "u1" "mandatory_security_briefing" = [] ∧
    adaptiveDispatchEffects ⟨"u1", "o1", 95, 0, 0, 0, 0, "critical", []⟩ =
      [Effect.publish "coach.send" "assign_urgent_training",
       Effect.publish "notifications.manager" "high_risk_user_alert",
       Effect.redisSetex "enhanced_monitoring:u1" 604800] :=
  c6_critical_dispatch_effects ⟨"u1", "o1", 95, 0, 0, 0, 0, "critical", []⟩ rfl

/-- C8: a cohort calculation in which every per-user calculation failed
(in particular one over an empty `user_ids` list) returns the explicit
failure response, not a zero score. -/
theorem c8_all_failures_explicit_failure (userResults : List (Option ℚ))
    (history : List ℚ) (h : ∀ r ∈ userResults, r = none) :
    calculateCohortRisk userResults history =
      CohortOutcome.failure "No valid user risk scores calculated" := by
  have hnil : userResults.filterMap id = [] :=
    List.filterMap_eq_nil_iff.mpr (fun a ha => by rw [h a ha]; rfl)
  simp [calculateCohortRisk, hnil]

/-- Witness for `c8_all_failures_explicit_failure`: a two-user cohort in
which both per-user calculations failed. -/
theorem c8_all_failures_explicit_failure_witness :
    calculateCohortRisk [none, none] [] =
      CohortOutcome.failure "No valid user risk scores calculated" :=
  c8_all_failures_explicit_failure [none, none] [] (by decide)

/-- C10: in every successful cohort result, `total_users` is the length
of the requested list (failed users included) while the average and the
high-risk count range only over the successful scores; consequently (the
concrete second part) the average can differ from the aggregated sum
divided by `total_users`. -/
theorem c10_cohort_aggregation :
    (∀ (userResults : List (Option ℚ)) (history : List ℚ) (avg : ℚ)
        (high total : ℕ) (trend : String) (recs : List String),
      calculateCohortRisk userResults history =
        CohortOutcome.success avg high total trend recs →
      total = userResults.length ∧
      avg = (userResults.filterMap id).sum /
        ((userResults.filterMap id).length : ℚ) ∧
      high = ((userResults.filterMap id).filter (fun s => 75 ≤ s)).length) ∧
    (calculateCohortRisk [some 80, none] [] =
      CohortOutcome.success 80 1 2 "stable"
        ["Implement organization-wide security awareness campaign",
         "Increase phishing simulation frequency"] ∧
     (80 : ℚ) ≠ (([some (80 : ℚ), none].filterMap id).sum /
       ((([some (80 : ℚ), none] : List (Option ℚ)).length : ℕ) : ℚ))) := by
  have hfm : ([some (80 : ℚ), none] : List (Option ℚ)).filterMap id = [80] := rfl
  refine ⟨?_,
    by
      norm_num [calculateCohortRisk, generateCohortRecommendations,
        calculateRiskTrend, List.filter_cons, decide_eq_true_eq, hfm]
      exact fun hc => absurd hc (by decide),
    by norm_num [hfm]⟩
  intro userResults history avg high total trend recs heq
  simp only [calculateCohortRisk] at heq
  split at heq
  · exact absurd heq (by simp)
  · injection heq with h1 h2 h3 h4 h5
    exact ⟨h3.symm, h1.symm, h2.symm⟩

/-- Witness for the general part of `c10_cohort_aggregation` at a
concrete cohort with one success and one failure. -/
theorem c10_cohort_aggregation_witness :
    2 = ([some (80 : ℚ), none] : List (Option ℚ)).length ∧
    (80 : ℚ) = (([some (80 : ℚ), none] : List (Option ℚ)).filterMap id).sum /
      ((([some (80 : ℚ), none] : List (Option ℚ)).filterMap id).length : ℚ) ∧
    1 = ((([some (80 : ℚ), none] : List (Option ℚ)).filterMap id).filter
      (fun s => 75 ≤ s)).length :=
  c10_cohort_aggregation.1 [some 80, none] [] 80 1 2 "stable"
    ["Implement organization-wide security awareness campaign",
     "Increase phishing simulation frequency"]
    (by
      have hfm : ([some (80 : ℚ), none] : List (Option ℚ)).filterMap id = [80] := rfl
      norm_num [calculateCohortRisk, generateCohortRecommendations,
        calculateRiskTrend, List.filter_cons, decide_eq_true_eq, hfm]
      exact fun hc => absurd hc (by decide))

end RiskWorker
